import Mathlib

/-!
Verification of the ferries-demo operations dashboard against its
natural-language specification.

The definitions below are a shallow embedding of the JavaScript source:

* `updateVesselData`, `determineVesselStatus`, `getOperationalState`,
  `checkForAlerts`, `handleEmergencyAlert`, `acknowledgeAlert` embed the
  reconciler / alert engine of the dashboard server
  (src/ferry-ops-dashboard/CHANGELOG.md, embedded server source).
* `saveTelemetry`, `getHistoricalData`, `aggregateData`, `exportToCSV`,
  `getStatistics` embed src/ferry-ops-dashboard/db/historical-data.js.

Modelling conventions:

* JavaScript numbers are modelled as `Int` (all thresholds are integral);
  millisecond timestamps as `Int`.  ISO timestamp strings are modelled by
  their millisecond value; such strings are never empty, so their JS
  truthiness is plain presence (`Option.isSome`).
* A possibly-absent object key is an `Option`.  Object spread
  `\x7b...a, ...b\x7d` becomes a per-field `b.field <|> a.field` merge.
* `x || null` on a number coerces `0` to SQL NULL (`jsNumOrNull`); on a
  string it coerces `""` away (`jsStrTruthy`).
* SQL result sets are lists of rows; `ORDER BY` is an insertion sort;
  SQL aggregates over an empty set give NULL min/max/avg and count 0.
-/

namespace FerryOps

/-- Derived vessel severity, the string constants of `determineVesselStatus`. -/
inductive Status where
  | normal
  | caution
  | warning
  | emergency
deriving Repr, DecidableEq

/-- The `engine` telemetry group. -/
structure EngineData where
  rpm : Option Int
  temperature : Option Int
  fuelFlow : Option Int
deriving Repr, DecidableEq

/-- The `power` telemetry group. -/
structure PowerData where
  batterySOC : Option Int
  voltage : Option Int
  generatorLoad : Option Int
  mode : Option String
deriving Repr, DecidableEq

/-- The `navigation` telemetry group (`saveTelemetry` also reads
positional fields from it). -/
structure NavigationData where
  speed : Option Int
  heading : Option Int
  latitude : Option Int
  longitude : Option Int
  route : Option String
deriving Repr, DecidableEq

/-- The `location` telemetry group. -/
structure LocationData where
  latitude : Option Int
  longitude : Option Int
  speed : Option Int
  heading : Option Int
deriving Repr, DecidableEq

/-- The `safety` telemetry group. -/
structure SafetyData where
  bilgeLevel : Option Int
  co2Level : Option Int
  fireAlarm : Option Bool
deriving Repr, DecidableEq

/-- The `systems` summary group carried by `status/systems` messages. -/
structure SystemsData where
  engine : Option String
  power : Option String
  safety : Option String
deriving Repr, DecidableEq

/-- A telemetry fragment (`vesselData` as passed to `updateVesselData`):
a partially populated subset of the vessel record.  `timestamp` is the
embedded event timestamp carried by some payloads; the merge stores it
but never consults it. -/
structure Fragment where
  vesselId : String
  operational : Option String
  lastTelemetry : Option Int
  timestamp : Option Int
  engine : Option EngineData
  power : Option PowerData
  navigation : Option NavigationData
  location : Option LocationData
  safety : Option SafetyData
  systems : Option SystemsData
deriving Repr, DecidableEq

/-- A canonical per-vessel record as stored in `opsState.fleet`:
the mergeable data fields plus the derived `lastSeen`, `status` and
`operationalState`. -/
structure Vessel where
  vesselId : String
  operational : Option String
  lastTelemetry : Option Int
  timestamp : Option Int
  engine : Option EngineData
  power : Option PowerData
  navigation : Option NavigationData
  location : Option LocationData
  safety : Option SafetyData
  systems : Option SystemsData
  lastSeen : Int
  status : Status
  operationalState : String
deriving Repr, DecidableEq

/-- JS `o?.f > c` : `false` when the chain is `undefined`. -/
def optGT (o : Option Int) (c : Int) : Bool :=
  match o with
  | some v => v > c
  | none => false

/-- JS `o?.f < c` : `false` when the chain is `undefined`. -/
def optLT (o : Option Int) (c : Int) : Bool :=
  match o with
  | some v => v < c
  | none => false

/-- Embedding of `determineVesselStatus(vesselData)` (dashboard server).  Note the
argument is whatever object is passed in — `updateVesselData` passes the
raw incoming fragment. -/
def determineVesselStatus (d : Fragment) : Status :=
  if (d.safety.bind SafetyData.fireAlarm).getD false then Status.emergency
  else if optGT (d.engine.bind EngineData.temperature) 100 then Status.warning
  else if optLT (d.power.bind PowerData.batterySOC) 20 then Status.caution
  else if optGT (d.safety.bind SafetyData.bilgeLevel) 50 then Status.caution
  else Status.normal

/-- The fields of the intermediate `mergedVessel` object that
`getOperationalState` reads: the result of the top-level shallow spread
`\x7b...existingVessel, ...vesselData\x7d`, in which a group object carried
by the fragment wholly shadows the existing group. -/
structure StateView where
  operational : Option String
  engine : Option EngineData
  location : Option LocationData
  lastTelemetry : Option Int
deriving Repr, DecidableEq

/-- The inference part of `getOperationalState` (everything after the
explicit-`operational` early return).  Five minutes is 300000 ms; the JS
test is `(now - lastUpdate) / 60000 < 5`. -/
def inferOperationalState (now : Int) (d : StateView) : String :=
  if optGT (d.engine.bind EngineData.rpm) 0 then "underway"
  else if d.location.isSome then "docked"
  else
    match d.lastTelemetry with
    | some t => if now - t < 300000 then "docked" else "offline"
    | none => "offline"

/-- Embedding of `getOperationalState(vesselData)` (dashboard server).  An explicit
`operational` value is returned verbatim when truthy (the empty string is
falsy in JS and falls through to inference). -/
def getOperationalState (now : Int) (d : StateView) : String :=
  match d.operational with
  | some s => if s = "" then inferOperationalState now d else s
  | none => inferOperationalState now d

/-- Embedding of `\x7b...e?.engine, ...f?.engine\x7d` under the guard
`if (vesselData.engine || existingVessel.engine)`. -/
def mergeEngine (e f : Option EngineData) : Option EngineData :=
  match e, f with
  | none, none => none
  | _, _ =>
    some { rpm := f.bind EngineData.rpm <|> e.bind EngineData.rpm
           temperature := f.bind EngineData.temperature <|> e.bind EngineData.temperature
           fuelFlow := f.bind EngineData.fuelFlow <|> e.bind EngineData.fuelFlow }

/-- Field-level merge of the `power` group. -/
def mergePower (e f : Option PowerData) : Option PowerData :=
  match e, f with
  | none, none => none
  | _, _ =>
    some { batterySOC := f.bind PowerData.batterySOC <|> e.bind PowerData.batterySOC
           voltage := f.bind PowerData.voltage <|> e.bind PowerData.voltage
           generatorLoad := f.bind PowerData.generatorLoad <|> e.bind PowerData.generatorLoad
           mode := f.bind PowerData.mode <|> e.bind PowerData.mode }

/-- Field-level merge of the `navigation` group. -/
def mergeNavigation (e f : Option NavigationData) : Option NavigationData :=
  match e, f with
  | none, none => none
  | _, _ =>
    some { speed := f.bind NavigationData.speed <|> e.bind NavigationData.speed
           heading := f.bind NavigationData.heading <|> e.bind NavigationData.heading
           latitude := f.bind NavigationData.latitude <|> e.bind NavigationData.latitude
           longitude := f.bind NavigationData.longitude <|> e.bind NavigationData.longitude
           route := f.bind NavigationData.route <|> e.bind NavigationData.route }

/-- Field-level merge of the `location` group. -/
def mergeLocation (e f : Option LocationData) : Option LocationData :=
  match e, f with
  | none, none => none
  | _, _ =>
    some { latitude := f.bind LocationData.latitude <|> e.bind LocationData.latitude
           longitude := f.bind LocationData.longitude <|> e.bind LocationData.longitude
           speed := f.bind LocationData.speed <|> e.bind LocationData.speed
           heading := f.bind LocationData.heading <|> e.bind LocationData.heading }

/-- Field-level merge of the `safety` group. -/
def mergeSafety (e f : Option SafetyData) : Option SafetyData :=
  match e, f with
  | none, none => none
  | _, _ =>
    some { bilgeLevel := f.bind SafetyData.bilgeLevel <|> e.bind SafetyData.bilgeLevel
           co2Level := f.bind SafetyData.co2Level <|> e.bind SafetyData.co2Level
           fireAlarm := f.bind SafetyData.fireAlarm <|> e.bind SafetyData.fireAlarm }

/-- Field-level merge of the `systems` group. -/
def mergeSystems (e f : Option SystemsData) : Option SystemsData :=
  match e, f with
  | none, none => none
  | _, _ =>
    some { engine := f.bind SystemsData.engine <|> e.bind SystemsData.engine
           power := f.bind SystemsData.power <|> e.bind SystemsData.power
           safety := f.bind SystemsData.safety <|> e.bind SystemsData.safety }

/-- Embedding of `updateVesselData(vesselData)` (dashboard server), as a function of the
current wall clock, the existing record of the vessel (`fleet.get(id) || \x7b\x7d`)
and the incoming fragment.  Faithful to the source order of events:
`status` is computed from the *fragment*, `operationalState` from the
intermediate shallow spread (before the per-group deep merges are written
back), and the stored record carries the per-group field-level merges. -/
def updateVesselData (now : Int) (existing : Option Vessel) (frag : Fragment) : Vessel :=
  let eOp := existing.bind Vessel.operational
  let eLT := existing.bind Vessel.lastTelemetry
  let eTs := existing.bind Vessel.timestamp
  let eEng := existing.bind Vessel.engine
  let ePow := existing.bind Vessel.power
  let eNav := existing.bind Vessel.navigation
  let eLoc := existing.bind Vessel.location
  let eSaf := existing.bind Vessel.safety
  let eSys := existing.bind Vessel.systems
  let st := determineVesselStatus frag
  let interView : StateView :=
    { operational := frag.operational <|> eOp
      engine := frag.engine <|> eEng
      location := frag.location <|> eLoc
      lastTelemetry := frag.lastTelemetry <|> eLT }
  let opState := getOperationalState now interView
  { vesselId := frag.vesselId
    operational := frag.operational <|> eOp
    lastTelemetry := frag.lastTelemetry <|> eLT
    timestamp := frag.timestamp <|> eTs
    engine := mergeEngine eEng frag.engine
    power := mergePower ePow frag.power
    navigation := mergeNavigation eNav frag.navigation
    location := mergeLocation eLoc frag.location
    safety := mergeSafety eSaf frag.safety
    systems := mergeSystems eSys frag.systems
    lastSeen := now
    status := st
    operationalState := opState }

/-- An alert record as built by `checkForAlerts` / `handleEmergencyAlert`.
`acknowledged`/`acknowledgedAt` are absent (falsy) until an
acknowledgement sets them; `location`/`emergencyType` are only set on
emergency alerts. -/
structure Alert where
  id : String
  vesselId : String
  type : String
  severity : String
  message : String
  timestamp : Int
  acknowledged : Bool
  acknowledgedAt : Option Int
  location : Option LocationData
  emergencyType : Option String
deriving Repr, DecidableEq

/-- The engine-temperature condition of `checkForAlerts`: over 95 pushes
an alert, critical over 105, with the reading in the message. -/
def tempAlerts (now : Int) (d : Fragment) : List Alert :=
  match d.engine.bind EngineData.temperature with
  | some t =>
    if t > 95 then
      [{ id := d.vesselId ++ "-engine-temp-" ++ toString now
         vesselId := d.vesselId
         type := "engine"
         severity := if t > 105 then "critical" else "warning"
         message := "Engine temperature high: " ++ toString t ++ "°C"
         timestamp := now
         acknowledged := false, acknowledgedAt := none
         location := none, emergencyType := none }]
    else []
  | none => []

/-- The engine-rpm condition of `checkForAlerts`: over 1800 pushes a
warning. -/
def rpmAlerts (now : Int) (d : Fragment) : List Alert :=
  match d.engine.bind EngineData.rpm with
  | some r =>
    if r > 1800 then
      [{ id := d.vesselId ++ "-engine-rpm-" ++ toString now
         vesselId := d.vesselId
         type := "engine"
         severity := "warning"
         message := "Engine RPM high: " ++ toString r
         timestamp := now
         acknowledged := false, acknowledgedAt := none
         location := none, emergencyType := none }]
    else []
  | none => []

/-- The battery-SOC condition of `checkForAlerts`: under 25 pushes an
alert, critical under 15. -/
def socAlerts (now : Int) (d : Fragment) : List Alert :=
  match d.power.bind PowerData.batterySOC with
  | some s =>
    if s < 25 then
      [{ id := d.vesselId ++ "-battery-low-" ++ toString now
         vesselId := d.vesselId
         type := "power"
         severity := if s < 15 then "critical" else "warning"
         message := "Battery SOC low: " ++ toString s ++ "%"
         timestamp := now
         acknowledged := false, acknowledgedAt := none
         location := none, emergencyType := none }]
    else []
  | none => []

/-- The bilge-level condition of `checkForAlerts`: over 40 pushes an
alert, critical over 60. -/
def bilgeAlerts (now : Int) (d : Fragment) : List Alert :=
  match d.safety.bind SafetyData.bilgeLevel with
  | some b =>
    if b > 40 then
      [{ id := d.vesselId ++ "-bilge-high-" ++ toString now
         vesselId := d.vesselId
         type := "safety"
         severity := if b > 60 then "critical" else "warning"
         message := "Bilge level high: " ++ toString b ++ "cm"
         timestamp := now
         acknowledged := false, acknowledgedAt := none
         location := none, emergencyType := none }]
    else []
  | none => []

/-- The fire-alarm condition of `checkForAlerts`: a strict `=== true`
comparison pushing one critical alert of type `emergency`. -/
def fireAlerts (now : Int) (d : Fragment) : List Alert :=
  if d.safety.bind SafetyData.fireAlarm = some true then
    [{ id := d.vesselId ++ "-fire-alarm-" ++ toString now
       vesselId := d.vesselId
       type := "emergency"
       severity := "critical"
       message := "🔥 FIRE ALARM ACTIVATED on " ++ d.vesselId
       timestamp := now
       acknowledged := false, acknowledgedAt := none
       location := none, emergencyType := none }]
  else []

/-- Embedding of `checkForAlerts(vesselData)` (dashboard server): the list of alerts
pushed for one update, in source order (temperature, rpm, battery, bilge,
fire).  `now` stands for `Date.now()`. -/
def checkForAlerts (now : Int) (d : Fragment) : List Alert :=
  tempAlerts now d ++ rpmAlerts now d ++ socAlerts now d ++ bilgeAlerts now d ++ fireAlerts now d

/-- Embedding of `alerts.forEach(alert => opsState.alerts.unshift(alert))`: each new
alert is prepended in turn, so the last-emitted alert ends up at the head
of the log. -/
def insertAlerts (newAlerts : List Alert) (log : List Alert) : List Alert :=
  newAlerts.foldl (fun acc a => a :: acc) log

/-- The effect of one `checkForAlerts` call on the alert log: prepend the
emitted alerts, then trim to the first (newest) 100 entries whenever the
log exceeds 100. -/
def checkForAlertsLog (now : Int) (log : List Alert) (d : Fragment) : List Alert :=
  let log2 := insertAlerts (checkForAlerts now d) log
  if log2.length > 100 then log2.take 100 else log2

/-- The payload of an `emergency_alert` message (`alertData` in
`handleEmergencyAlert`). -/
structure EmergencyData where
  vesselId : String
  message : Option String
  timestamp : Option Int
  location : Option LocationData
  type : Option String
deriving Repr, DecidableEq

/-- Embedding of `alertData.message || defaultMsg` on a string: the empty string is
falsy and falls back. -/
def jsStrGetD (o : Option String) (dflt : String) : String :=
  match o with
  | some s => if s = "" then dflt else s
  | none => dflt

/-- Embedding of `handleEmergencyAlert(alertData)` (dashboard server): builds the
emergency alert and prepends it to the log.  Note: no trim is applied
here.  `alertData.timestamp` is an ISO string, never empty, so its JS
truthiness is plain presence. -/
def handleEmergencyAlert (now : Int) (log : List Alert) (d : EmergencyData) : List Alert :=
  { id := "emergency-" ++ toString now
    vesselId := d.vesselId
    type := "emergency"
    severity := "critical"
    message := jsStrGetD d.message "Emergency situation detected"
    timestamp := d.timestamp.getD now
    acknowledged := false, acknowledgedAt := none
    location := d.location
    emergencyType := d.type } :: log

/-- Embedding of `findIndex` + in-place mutation of `acknowledgeAlert`: update the
first alert whose id matches, report whether one was found. -/
def ackFirst (now : Int) (alertId : String) : List Alert → List Alert × Bool
  | [] => ([], false)
  | a :: rest =>
    if a.id = alertId then
      ({ a with acknowledged := true, acknowledgedAt := some now } :: rest, true)
    else
      let r := ackFirst now alertId rest
      (a :: r.1, r.2)

/-- Embedding of `acknowledgeAlert(alertId)` (dashboard server): sets
`acknowledged = true` and `acknowledgedAt = now` on the first matching
alert and broadcasts `\x7balertId, acknowledgedAt\x7d`; when no alert
matches it does nothing at all (no broadcast, no error).  The second
component models the broadcast payload (`some acknowledgedAt` iff one was
sent). -/
def acknowledgeAlert (now : Int) (log : List Alert) (alertId : String) : List Alert × Option Int :=
  let r := ackFirst now alertId log
  if r.2 then (r.1, some now) else (log, none)

/-- A row of the `telemetry` table (CHANGELOG schema, 17 columns). -/
structure TelemetryRow where
  id : Nat
  vessel_id : String
  timestamp : Int
  engine_rpm : Option Int
  engine_temp : Option Int
  fuel_flow : Option Int
  battery_soc : Option Int
  voltage : Option Int
  generator_load : Option Int
  speed : Option Int
  heading : Option Int
  latitude : Option Int
  longitude : Option Int
  bilge_level : Option Int
  co2_level : Option Int
  operational_state : Option String
  created_at : Int
deriving Repr, DecidableEq

/-- Embedding of `x || null` on a JS number: `0` is falsy and becomes SQL NULL. -/
def jsNumOrNull (o : Option Int) : Option Int :=
  match o with
  | some v => if v = 0 then none else some v
  | none => none

/-- Embedding of `a || b || null` on JS numbers: first truthy (nonzero) value, else NULL. -/
def jsNumOr (a b : Option Int) : Option Int :=
  match jsNumOrNull a with
  | some v => some v
  | none => jsNumOrNull b

/-- Embedding of `a || b || null` on JS strings: first truthy (nonempty) value, else NULL. -/
def jsStrOr (a b : Option String) : Option String :=
  match a with
  | some s => if s = "" then (match b with
      | some t => if t = "" then none else some t
      | none => none) else some s
  | none =>
    match b with
    | some t => if t = "" then none else some t
    | none => none

/-- Embedding of `saveTelemetry(vesselData)` (historical-data.js): the row inserted for
one sampled vessel state.  Every metric goes through `|| null`, so a zero
reading is stored as NULL; positional fields fall back from `navigation`
to `location`.  `rowId` stands for the AUTOINCREMENT id; `now` for
`new Date()`. -/
def saveTelemetry (now : Int) (rowId : Nat) (v : Vessel) : TelemetryRow :=
  { id := rowId
    vessel_id := v.vesselId
    timestamp := now
    engine_rpm := jsNumOrNull (v.engine.bind EngineData.rpm)
    engine_temp := jsNumOrNull (v.engine.bind EngineData.temperature)
    fuel_flow := jsNumOrNull (v.engine.bind EngineData.fuelFlow)
    battery_soc := jsNumOrNull (v.power.bind PowerData.batterySOC)
    voltage := jsNumOrNull (v.power.bind PowerData.voltage)
    generator_load := jsNumOrNull (v.power.bind PowerData.generatorLoad)
    speed := jsNumOr (v.navigation.bind NavigationData.speed) (v.location.bind LocationData.speed)
    heading := jsNumOr (v.navigation.bind NavigationData.heading) (v.location.bind LocationData.heading)
    latitude := jsNumOr (v.navigation.bind NavigationData.latitude) (v.location.bind LocationData.latitude)
    longitude := jsNumOr (v.navigation.bind NavigationData.longitude) (v.location.bind LocationData.longitude)
    bilge_level := jsNumOrNull (v.safety.bind SafetyData.bilgeLevel)
    co2_level := jsNumOrNull (v.safety.bind SafetyData.co2Level)
    operational_state := jsStrOr (some v.operationalState) v.operational
    created_at := now }

/-- Column lookup for an interpolated metric name (the `${metric}` SQL
fragments).  Unknown names behave like a NULL column. -/
def metricVal (metric : String) (r : TelemetryRow) : Option Int :=
  if metric = "engine_rpm" then r.engine_rpm
  else if metric = "engine_temp" then r.engine_temp
  else if metric = "fuel_flow" then r.fuel_flow
  else if metric = "battery_soc" then r.battery_soc
  else if metric = "voltage" then r.voltage
  else if metric = "generator_load" then r.generator_load
  else if metric = "speed" then r.speed
  else if metric = "heading" then r.heading
  else if metric = "latitude" then r.latitude
  else if metric = "longitude" then r.longitude
  else if metric = "bilge_level" then r.bilge_level
  else if metric = "co2_level" then r.co2_level
  else none

/-- The metric columns aggregated by `aggregateData` (`this.metrics`). -/
def aggMetrics : List String :=
  ["engine_rpm", "engine_temp", "fuel_flow", "battery_soc", "voltage",
   "generator_load", "speed", "bilge_level", "co2_level"]

/-- Embedding of `this.aggregationIntervals[intervalType]` in milliseconds. -/
def aggregationIntervals (intervalType : String) : Option Int :=
  if intervalType = "5min" then some 300000
  else if intervalType = "hour" then some 3600000
  else none

/-- A row of the `telemetry_aggregates` table.  The AUTOINCREMENT id is
not modelled; duplicate inserts show up as list multiplicity. -/
structure AggRow where
  vessel_id : String
  timestamp : Int
  interval_type : String
  metric_name : String
  min_value : Int
  max_value : Int
  avg_value : Rat
  count : Nat
deriving Repr, DecidableEq

/-- SQL `AVG` over the listed (non-null) values. -/
def listAvg (l : List Int) : Rat :=
  ((l.sum : Int) : Rat) / ((l.length : Nat) : Rat)

/-- Helper for `SELECT DISTINCT`: drop values already seen. -/
def dedupFirstAux (seen : List String) : List String → List String
  | [] => []
  | x :: xs =>
    if seen.contains x then dedupFirstAux seen xs
    else x :: dedupFirstAux (x :: seen) xs

/-- Embedding of `SELECT DISTINCT` keeping first occurrences. -/
def dedupFirst (l : List String) : List String := dedupFirstAux [] l

/-- The non-null values of `metric` among raw rows of vessel `v` with
timestamp in `[s, e)` (the per-vessel per-metric aggregation query). -/
def windowVals (raw : List TelemetryRow) (v metric : String) (s e : Int) : List Int :=
  (raw.filter (fun r => r.vessel_id == v && decide (s ≤ r.timestamp) && decide (r.timestamp < e))).filterMap
    (metricVal metric)

/-- The vessels with any raw row in the window
(`SELECT DISTINCT vessel_id FROM telemetry WHERE ...`). -/
def vesselsInWindow (raw : List TelemetryRow) (s e : Int) : List String :=
  dedupFirst ((raw.filter (fun r => decide (s ≤ r.timestamp) && decide (r.timestamp < e))).map
    TelemetryRow.vessel_id)

/-- The batch of aggregate rows one `aggregateData` run inserts for the
window `[s, e)`: one row per (vessel in window, metric) with at least one
non-null sample, always via a plain `INSERT`. -/
def newAggRows (raw : List TelemetryRow) (intervalType : String) (s e : Int) : List AggRow :=
  (vesselsInWindow raw s e).flatMap (fun v =>
    aggMetrics.filterMap (fun m =>
      match windowVals raw v m s e with
      | [] => none
      | x :: xs =>
        some { vessel_id := v
               timestamp := s
               interval_type := intervalType
               metric_name := m
               min_value := xs.foldl min x
               max_value := xs.foldl max x
               avg_value := listAvg (x :: xs)
               count := (x :: xs).length }))

/-- Embedding of `aggregateData(intervalType)` (historical-data.js): window
`[floor(now/interval)*interval - interval, +interval)`, stats per vessel
per metric over non-null samples, inserted (appended) into the aggregates
table; rows with zero non-null samples are skipped.  There is no
upsert and the table has no unique key, so existing rows are never
replaced. -/
def aggregateData (now : Int) (raw : List TelemetryRow) (aggs : List AggRow)
    (intervalType : String) : List AggRow :=
  match aggregationIntervals intervalType with
  | none => aggs
  | some ims =>
    let s := (Int.fdiv now ims) * ims - ims
    aggs ++ newAggRows raw intervalType s (s + ims)

/-- Insertion step of the `ORDER BY` model. -/
def insertSorted (le : α → α → Bool) (x : α) : List α → List α
  | [] => [x]
  | y :: ys => if le x y then x :: y :: ys else y :: insertSorted le x ys

/-- Embedding of `ORDER BY` modelled as an insertion sort (kernel-computable). -/
def sortRows (le : α → α → Bool) (l : List α) : List α :=
  l.foldr (insertSorted le) []

/-- The `hoursAgo` map of `exportToCSV`: only `1h`, `12h` and `24h` have
entries; everything else — `6h` included — falls back to 24. -/
def exportHours (timeRange : String) : Int :=
  if timeRange = "1h" then 1
  else if timeRange = "12h" then 12
  else if timeRange = "24h" then 24
  else 24

/-- The rows `exportToCSV` selects: this vessel, newer than
`now - hoursAgo`, newest first. -/
def exportRows (now : Int) (raw : List TelemetryRow) (v timeRange : String) : List TelemetryRow :=
  let since := now - exportHours timeRange * 3600000
  sortRows (fun a b => b.timestamp ≤ a.timestamp)
    (raw.filter (fun r => r.vessel_id == v && decide (r.timestamp > since)))

/-- Column names of the telemetry table in schema order
(`Object.keys(rows[0])` on a `SELECT *` row). -/
def csvHeader : List String :=
  ["id", "vessel_id", "timestamp", "engine_rpm", "engine_temp", "fuel_flow",
   "battery_soc", "voltage", "generator_load", "speed", "heading",
   "latitude", "longitude", "bilge_level", "co2_level",
   "operational_state", "created_at"]

/-- One CSV cell: `val !== null ? val : ""`. -/
def csvCell (o : Option Int) : String :=
  match o with
  | some v => toString v
  | none => ""

/-- The 17 rendered cells of one exported row, in column order. -/
def renderRow (r : TelemetryRow) : List String :=
  [toString r.id, r.vessel_id, toString r.timestamp,
   csvCell r.engine_rpm, csvCell r.engine_temp, csvCell r.fuel_flow,
   csvCell r.battery_soc, csvCell r.voltage, csvCell r.generator_load,
   csvCell r.speed, csvCell r.heading, csvCell r.latitude,
   csvCell r.longitude, csvCell r.bilge_level, csvCell r.co2_level,
   r.operational_state.getD "", toString r.created_at]

/-- The lines of the CSV output: nothing at all for an empty result set,
else the header line followed by one line per selected row. -/
def exportLines (now : Int) (raw : List TelemetryRow) (v timeRange : String) : List String :=
  match exportRows now raw v timeRange with
  | [] => []
  | rows => String.intercalate "," csvHeader :: rows.map (fun r => String.intercalate "," (renderRow r))

/-- Embedding of `exportToCSV(vesselId, timeRange)` (historical-data.js): resolves the
empty string when no rows match, else the header and rows joined by
newlines. -/
def exportToCSV (now : Int) (raw : List TelemetryRow) (v timeRange : String) : String :=
  match exportLines now raw v timeRange with
  | [] => ""
  | ls => String.intercalate "\n" ls

/-- The `hoursAgo` of `getStatistics`: 24 only for the range string 24h, otherwise 1. -/
def statsHours (timeRange : String) : Int :=
  if timeRange = "24h" then 24 else 1

/-- The statistics row `db.get` hands back: SQL aggregates over an empty
set are NULL min/max/avg with count 0. -/
structure StatsResult where
  min : Option Int
  max : Option Int
  avg : Option Rat
  count : Nat
deriving Repr, DecidableEq

/-- The non-null values of `metric` matched by the `getStatistics` query
(this vessel, newer than `now - hoursAgo`). -/
def statsVals (now : Int) (raw : List TelemetryRow) (v metric timeRange : String) : List Int :=
  let since := now - statsHours timeRange * 3600000
  (raw.filter (fun r => r.vessel_id == v && decide (r.timestamp > since))).filterMap
    (metricVal metric)

/-- Embedding of `getStatistics(vesselId, metric, timeRange)` (historical-data.js):
the SQL aggregate row.  With zero matching rows the aggregate row still
exists and carries NULL min/max/avg and count 0 — the
`stats || \x7bmin: 0, ...\x7d` fallback never fires on an empty table,
only the error path returns zeroed stats. -/
def getStatistics (now : Int) (raw : List TelemetryRow) (v metric timeRange : String) : StatsResult :=
  match statsVals now raw v metric timeRange with
  | [] => { min := none, max := none, avg := none, count := 0 }
  | x :: xs =>
    { min := some (xs.foldl min x)
      max := some (xs.foldl max x)
      avg := some (listAvg (x :: xs))
      count := (x :: xs).length }

/-- The row filter of the raw-data branch of `getHistoricalData`
(`timeRange` 1h or 6h): this vessel, inside the window, metric non-null. -/
def rawQueryKeeps (v metric : String) (since : Int) (r : TelemetryRow) : Bool :=
  r.vessel_id == v && decide (r.timestamp > since) && (metricVal metric r).isSome

/-- The `hoursAgo` map of `getHistoricalData` (all four ranges present,
default 24). -/
def rangeHours (timeRange : String) : Int :=
  if timeRange = "1h" then 1
  else if timeRange = "6h" then 6
  else if timeRange = "12h" then 12
  else if timeRange = "24h" then 24
  else 24

/-- A `\x7btimestamp, value\x7d` point returned to the dashboard. -/
structure DataPoint where
  timestamp : Int
  value : Rat
deriving Repr, DecidableEq

/-- Embedding of `getHistoricalData(vesselId, metric, timeRange)` (historical-data.js):
raw rows for 1h/6h (non-null metric, ascending), 5-minute aggregate
averages for longer ranges. -/
def getHistoricalData (now : Int) (raw : List TelemetryRow) (aggs : List AggRow)
    (v metric timeRange : String) : List DataPoint :=
  let since := now - rangeHours timeRange * 3600000
  if timeRange = "1h" ∨ timeRange = "6h" then
    (sortRows (fun a b => a.timestamp ≤ b.timestamp)
        (raw.filter (rawQueryKeeps v metric since))).map
      (fun r => { timestamp := r.timestamp, value := (((metricVal metric r).getD 0 : Int) : Rat) })
  else
    (sortRows (fun a b => a.timestamp ≤ b.timestamp)
        (aggs.filter (fun a => a.vessel_id == v && a.metric_name == metric &&
          a.interval_type == "5min" && decide (a.timestamp > since)))).map
      (fun a => { timestamp := a.timestamp, value := a.avg_value })

/-! ## Spec-side definitions

These restate rules in the words of the specification, to be compared
with the source-derived definitions above. -/

/-- The status rule as the spec words it, as a function of the four
readings: first match wins among fire alarm, engine temperature over
100, battery SOC under 20, bilge level over 50. -/
def statusRuleSpec (fireAlarm : Option Bool) (temperature batterySOC bilgeLevel : Option Int) :
    Status :=
  if fireAlarm = some true then Status.emergency
  else if optGT temperature 100 then Status.warning
  else if optLT batterySOC 20 then Status.caution
  else if optGT bilgeLevel 50 then Status.caution
  else Status.normal

/-- Claim C4 as stated: the status rule evaluated on the fully merged
fields of the merged record. -/
def statusOfMergedSpec (v : Vessel) : Status :=
  statusRuleSpec (v.safety.bind SafetyData.fireAlarm)
    (v.engine.bind EngineData.temperature)
    (v.power.bind PowerData.batterySOC)
    (v.safety.bind SafetyData.bilgeLevel)

/-- The status rule evaluated on the fields of the incoming fragment alone
(the amended reading of claim C4). -/
def statusOfFragmentSpec (f : Fragment) : Status :=
  statusRuleSpec (f.safety.bind SafetyData.fireAlarm)
    (f.engine.bind EngineData.temperature)
    (f.power.bind PowerData.batterySOC)
    (f.safety.bind SafetyData.bilgeLevel)

/-- Claim C5 as stated: operational state from the merged record, with
rule 4 reading `lastSeen`. -/
def opStateOfMergedSpec (now : Int) (v : Vessel) : String :=
  match v.operational with
  | some s => s
  | none =>
    if optGT (v.engine.bind EngineData.rpm) 0 then "underway"
    else if v.location.isSome then "docked"
    else if now - v.lastSeen < 300000 then "docked"
    else "offline"

/-- The inference tail of the amended claim C5 rule. -/
def opStateInferSpec (now : Int) (eng : Option EngineData) (loc : Option LocationData)
    (lt : Option Int) : String :=
  if optGT (eng.bind EngineData.rpm) 0 then "underway"
  else if loc.isSome then "docked"
  else
    match lt with
    | some t => if now - t < 300000 then "docked" else "offline"
    | none => "offline"

/-- The amended reading of claim C5: operational state is derived from
the *shallow* top-level merge of existing record and fragment (a group
carried by the fragment wholly shadows the existing group for this
computation), a truthy explicit `operational` wins verbatim, and rule 4
consults `lastTelemetry`, never `lastSeen`. -/
def opStateShallowSpec (now : Int) (existing : Option Vessel) (f : Fragment) : String :=
  let op := f.operational <|> existing.bind Vessel.operational
  let eng := f.engine <|> existing.bind Vessel.engine
  let loc := f.location <|> existing.bind Vessel.location
  let lt := f.lastTelemetry <|> existing.bind Vessel.lastTelemetry
  match op with
  | some s => if s = "" then opStateInferSpec now eng loc lt else s
  | none => opStateInferSpec now eng loc lt

/-! ## Merge projection lemmas -/

theorem mergeEngine_rpm (e f : Option EngineData) :
    (mergeEngine e f).bind EngineData.rpm =
      (f.bind EngineData.rpm <|> e.bind EngineData.rpm) := by
  cases e <;> cases f <;> rfl

theorem mergeEngine_temperature (e f : Option EngineData) :
    (mergeEngine e f).bind EngineData.temperature =
      (f.bind EngineData.temperature <|> e.bind EngineData.temperature) := by
  cases e <;> cases f <;> rfl

theorem mergeEngine_fuelFlow (e f : Option EngineData) :
    (mergeEngine e f).bind EngineData.fuelFlow =
      (f.bind EngineData.fuelFlow <|> e.bind EngineData.fuelFlow) := by
  cases e <;> cases f <;> rfl

theorem mergePower_batterySOC (e f : Option PowerData) :
    (mergePower e f).bind PowerData.batterySOC =
      (f.bind PowerData.batterySOC <|> e.bind PowerData.batterySOC) := by
  cases e <;> cases f <;> rfl

theorem mergePower_voltage (e f : Option PowerData) :
    (mergePower e f).bind PowerData.voltage =
      (f.bind PowerData.voltage <|> e.bind PowerData.voltage) := by
  cases e <;> cases f <;> rfl

theorem mergePower_generatorLoad (e f : Option PowerData) :
    (mergePower e f).bind PowerData.generatorLoad =
      (f.bind PowerData.generatorLoad <|> e.bind PowerData.generatorLoad) := by
  cases e <;> cases f <;> rfl

theorem mergePower_mode (e f : Option PowerData) :
    (mergePower e f).bind PowerData.mode =
      (f.bind PowerData.mode <|> e.bind PowerData.mode) := by
  cases e <;> cases f <;> rfl

theorem mergeNavigation_speed (e f : Option NavigationData) :
    (mergeNavigation e f).bind NavigationData.speed =
      (f.bind NavigationData.speed <|> e.bind NavigationData.speed) := by
  cases e <;> cases f <;> rfl

theorem mergeNavigation_heading (e f : Option NavigationData) :
    (mergeNavigation e f).bind NavigationData.heading =
      (f.bind NavigationData.heading <|> e.bind NavigationData.heading) := by
  cases e <;> cases f <;> rfl

theorem mergeNavigation_latitude (e f : Option NavigationData) :
    (mergeNavigation e f).bind NavigationData.latitude =
      (f.bind NavigationData.latitude <|> e.bind NavigationData.latitude) := by
  cases e <;> cases f <;> rfl

theorem mergeNavigation_longitude (e f : Option NavigationData) :
    (mergeNavigation e f).bind NavigationData.longitude =
      (f.bind NavigationData.longitude <|> e.bind NavigationData.longitude) := by
  cases e <;> cases f <;> rfl

theorem mergeNavigation_route (e f : Option NavigationData) :
    (mergeNavigation e f).bind NavigationData.route =
      (f.bind NavigationData.route <|> e.bind NavigationData.route) := by
  cases e <;> cases f <;> rfl

theorem mergeLocation_latitude (e f : Option LocationData) :
    (mergeLocation e f).bind LocationData.latitude =
      (f.bind LocationData.latitude <|> e.bind LocationData.latitude) := by
  cases e <;> cases f <;> rfl

theorem mergeLocation_longitude (e f : Option LocationData) :
    (mergeLocation e f).bind LocationData.longitude =
      (f.bind LocationData.longitude <|> e.bind LocationData.longitude) := by
  cases e <;> cases f <;> rfl

theorem mergeLocation_speed (e f : Option LocationData) :
    (mergeLocation e f).bind LocationData.speed =
      (f.bind LocationData.speed <|> e.bind LocationData.speed) := by
  cases e <;> cases f <;> rfl

theorem mergeLocation_heading (e f : Option LocationData) :
    (mergeLocation e f).bind LocationData.heading =
      (f.bind LocationData.heading <|> e.bind LocationData.heading) := by
  cases e <;> cases f <;> rfl

theorem mergeSafety_bilgeLevel (e f : Option SafetyData) :
    (mergeSafety e f).bind SafetyData.bilgeLevel =
      (f.bind SafetyData.bilgeLevel <|> e.bind SafetyData.bilgeLevel) := by
  cases e <;> cases f <;> rfl

theorem mergeSafety_co2Level (e f : Option SafetyData) :
    (mergeSafety e f).bind SafetyData.co2Level =
      (f.bind SafetyData.co2Level <|> e.bind SafetyData.co2Level) := by
  cases e <;> cases f <;> rfl

theorem mergeSafety_fireAlarm (e f : Option SafetyData) :
    (mergeSafety e f).bind SafetyData.fireAlarm =
      (f.bind SafetyData.fireAlarm <|> e.bind SafetyData.fireAlarm) := by
  cases e <;> cases f <;> rfl

theorem mergeSystems_engine (e f : Option SystemsData) :
    (mergeSystems e f).bind SystemsData.engine =
      (f.bind SystemsData.engine <|> e.bind SystemsData.engine) := by
  cases e <;> cases f <;> rfl

theorem mergeSystems_power (e f : Option SystemsData) :
    (mergeSystems e f).bind SystemsData.power =
      (f.bind SystemsData.power <|> e.bind SystemsData.power) := by
  cases e <;> cases f <;> rfl

theorem mergeSystems_safety (e f : Option SystemsData) :
    (mergeSystems e f).bind SystemsData.safety =
      (f.bind SystemsData.safety <|> e.bind SystemsData.safety) := by
  cases e <;> cases f <;> rfl

/-! ## Claim theorems -/

/-- Claim C1: for every vessel state and every applied fragment, the
merge is field-level last-writer-wins: each data field of the resulting
canonical record — top-level (`operational`, `lastTelemetry`, the
embedded event `timestamp`) and inside every nested group (`engine`,
`power`, `navigation`, `location`, `safety`, and also `systems`) — is
the value carried by the fragment when the fragment carries the field, and the
pre-merge value when the fragment omits it (`frag.field <|> old.field`).
The right-hand sides depend only on fragment and prior state, never on
the embedded event timestamp, so arrival order alone decides the merge;
since the pre-merge state is universally quantified, the property holds
after any sequence of applied fragments. -/
theorem apply_field_level_merge (now : Int) (existing : Option Vessel) (frag : Fragment) :
    (updateVesselData now existing frag).vesselId = frag.vesselId ∧
    (updateVesselData now existing frag).operational =
      (frag.operational <|> existing.bind Vessel.operational) ∧
    (updateVesselData now existing frag).lastTelemetry =
      (frag.lastTelemetry <|> existing.bind Vessel.lastTelemetry) ∧
    (updateVesselData now existing frag).timestamp =
      (frag.timestamp <|> existing.bind Vessel.timestamp) ∧
    (updateVesselData now existing frag).engine.bind EngineData.rpm =
      (frag.engine.bind EngineData.rpm <|> (existing.bind Vessel.engine).bind EngineData.rpm) ∧
    (updateVesselData now existing frag).engine.bind EngineData.temperature =
      (frag.engine.bind EngineData.temperature <|>
        (existing.bind Vessel.engine).bind EngineData.temperature) ∧
    (updateVesselData now existing frag).engine.bind EngineData.fuelFlow =
      (frag.engine.bind EngineData.fuelFlow <|>
        (existing.bind Vessel.engine).bind EngineData.fuelFlow) ∧
    (updateVesselData now existing frag).power.bind PowerData.batterySOC =
      (frag.power.bind PowerData.batterySOC <|>
        (existing.bind Vessel.power).bind PowerData.batterySOC) ∧
    (updateVesselData now existing frag).power.bind PowerData.voltage =
      (frag.power.bind PowerData.voltage <|>
        (existing.bind Vessel.power).bind PowerData.voltage) ∧
    (updateVesselData now existing frag).power.bind PowerData.generatorLoad =
      (frag.power.bind PowerData.generatorLoad <|>
        (existing.bind Vessel.power).bind PowerData.generatorLoad) ∧
    (updateVesselData now existing frag).power.bind PowerData.mode =
      (frag.power.bind PowerData.mode <|> (existing.bind Vessel.power).bind PowerData.mode) ∧
    (updateVesselData now existing frag).navigation.bind NavigationData.speed =
      (frag.navigation.bind NavigationData.speed <|>
        (existing.bind Vessel.navigation).bind NavigationData.speed) ∧
    (updateVesselData now existing frag).navigation.bind NavigationData.heading =
      (frag.navigation.bind NavigationData.heading <|>
        (existing.bind Vessel.navigation).bind NavigationData.heading) ∧
    (updateVesselData now existing frag).navigation.bind NavigationData.latitude =
      (frag.navigation.bind NavigationData.latitude <|>
        (existing.bind Vessel.navigation).bind NavigationData.latitude) ∧
    (updateVesselData now existing frag).navigation.bind NavigationData.longitude =
      (frag.navigation.bind NavigationData.longitude <|>
        (existing.bind Vessel.navigation).bind NavigationData.longitude) ∧
    (updateVesselData now existing frag).navigation.bind NavigationData.route =
      (frag.navigation.bind NavigationData.route <|>
        (existing.bind Vessel.navigation).bind NavigationData.route) ∧
    (updateVesselData now existing frag).location.bind LocationData.latitude =
      (frag.location.bind LocationData.latitude <|>
        (existing.bind Vessel.location).bind LocationData.latitude) ∧
    (updateVesselData now existing frag).location.bind LocationData.longitude =
      (frag.location.bind LocationData.longitude <|>
        (existing.bind Vessel.location).bind LocationData.longitude) ∧
    (updateVesselData now existing frag).location.bind LocationData.speed =
      (frag.location.bind LocationData.speed <|>
        (existing.bind Vessel.location).bind LocationData.speed) ∧
    (updateVesselData now existing frag).location.bind LocationData.heading =
      (frag.location.bind LocationData.heading <|>
        (existing.bind Vessel.location).bind LocationData.heading) ∧
    (updateVesselData now existing frag).safety.bind SafetyData.bilgeLevel =
      (frag.safety.bind SafetyData.bilgeLevel <|>
        (existing.bind Vessel.safety).bind SafetyData.bilgeLevel) ∧
    (updateVesselData now existing frag).safety.bind SafetyData.co2Level =
      (frag.safety.bind SafetyData.co2Level <|>
        (existing.bind Vessel.safety).bind SafetyData.co2Level) ∧
    (updateVesselData now existing frag).safety.bind SafetyData.fireAlarm =
      (frag.safety.bind SafetyData.fireAlarm <|>
        (existing.bind Vessel.safety).bind SafetyData.fireAlarm) ∧
    (updateVesselData now existing frag).systems.bind SystemsData.engine =
      (frag.systems.bind SystemsData.engine <|>
        (existing.bind Vessel.systems).bind SystemsData.engine) ∧
    (updateVesselData now existing frag).systems.bind SystemsData.power =
      (frag.systems.bind SystemsData.power <|>
        (existing.bind Vessel.systems).bind SystemsData.power) ∧
    (updateVesselData now existing frag).systems.bind SystemsData.safety =
      (frag.systems.bind SystemsData.safety <|>
        (existing.bind Vessel.systems).bind SystemsData.safety) :=
  ⟨rfl, rfl, rfl, rfl,
   mergeEngine_rpm _ _, mergeEngine_temperature _ _, mergeEngine_fuelFlow _ _,
   mergePower_batterySOC _ _, mergePower_voltage _ _, mergePower_generatorLoad _ _,
   mergePower_mode _ _,
   mergeNavigation_speed _ _, mergeNavigation_heading _ _, mergeNavigation_latitude _ _,
   mergeNavigation_longitude _ _, mergeNavigation_route _ _,
   mergeLocation_latitude _ _, mergeLocation_longitude _ _, mergeLocation_speed _ _,
   mergeLocation_heading _ _,
   mergeSafety_bilgeLevel _ _, mergeSafety_co2Level _ _, mergeSafety_fireAlarm _ _,
   mergeSystems_engine _ _, mergeSystems_power _ _, mergeSystems_safety _ _⟩

/-- A first fragment raising the fire alarm. -/
def fragFire : Fragment :=
  { vesselId := "v1", operational := none, lastTelemetry := none, timestamp := none,
    engine := none, power := none, navigation := none, location := none,
    safety := some { bilgeLevel := none, co2Level := none, fireAlarm := some true },
    systems := none }

/-- A follow-up fragment carrying only an rpm reading (no `safety`
group). -/
def fragRpm : Fragment :=
  { vesselId := "v1", operational := none, lastTelemetry := none, timestamp := none,
    engine := some { rpm := some 500, temperature := none, fuelFlow := none },
    power := none, navigation := none, location := none, safety := none, systems := none }

/-- Claim C4 counterexample: after a fire-alarm fragment and then a
fragment that omits the `safety` group, the merged record still carries
`fireAlarm = true`, yet the stored status is the evaluation of the
*fragment*, not of the merged record — the claimed first-match rule on
the merged fields would give `emergency`. -/
theorem status_ignores_merged_fields_cex :
    (updateVesselData 1000 (some (updateVesselData 0 none fragFire)) fragRpm).safety.bind
        SafetyData.fireAlarm = some true ∧
    (updateVesselData 1000 (some (updateVesselData 0 none fragFire)) fragRpm).status ≠
      statusOfMergedSpec
        (updateVesselData 1000 (some (updateVesselData 0 none fragFire)) fragRpm) := by
  decide

/-- Claim C4 amended: after `apply(fragment)` the stored vessel status is the
first-match evaluation (fire alarm → emergency; temperature > 100 →
warning; battery SOC < 20 → caution; bilge level > 50 → caution; else
normal) of the fields of the *incoming fragment* alone — `updateVesselData`
calls `determineVesselStatus(vesselData)` on the fragment before the
deep merge, so a fragment that omits a group loses any status owed to
previously merged fields of that group. -/
theorem status_from_fragment_only (now : Int) (existing : Option Vessel) (frag : Fragment) :
    (updateVesselData now existing frag).status = statusOfFragmentSpec frag := by
  show determineVesselStatus frag = statusOfFragmentSpec frag
  unfold determineVesselStatus statusOfFragmentSpec statusRuleSpec
  rcases h : frag.safety.bind SafetyData.fireAlarm with _ | b
  · simp [h]
  · cases b <;> simp [h]

/-- A fragment for an unseen vessel carrying no telemetry at all. -/
def fragEmptyV1 : Fragment :=
  { vesselId := "v1", operational := none, lastTelemetry := none, timestamp := none,
    engine := none, power := none, navigation := none, location := none,
    safety := none, systems := none }

/-- Claim C5 counterexample: a just-applied empty fragment yields
`lastSeen = now`, so the claimed rule 4 (`lastSeen` within 5 minutes of
now → docked) would give `docked`; the code consults `lastTelemetry`
(absent here) instead and stores `offline`. -/
theorem opstate_fresh_lastseen_offline_cex :
    (updateVesselData 0 none fragEmptyV1).lastSeen = 0 ∧
    (updateVesselData 0 none fragEmptyV1).operationalState = "offline" ∧
    opStateOfMergedSpec 0 (updateVesselData 0 none fragEmptyV1) = "docked" := by
  decide

/-- Claim C5 amended: after `apply(fragment)`, `operationalState` is
derived in strict priority order from the *shallow* top-level merge of
existing record and fragment (a group object carried by the fragment
wholly shadows the existing group for this computation; the per-field
deep merge is only written back afterwards): a truthy explicit
`operational` value is used verbatim; else `engine.rpm > 0` yields
`underway`; else a present `location` yields `docked`; else a
`lastTelemetry` timestamp less than 5 minutes old yields `docked`; else
`offline`.  `lastSeen` is never consulted. -/
theorem opstate_shallow_view_rule (now : Int) (existing : Option Vessel) (frag : Fragment) :
    (updateVesselData now existing frag).operationalState =
      opStateShallowSpec now existing frag := by
  rfl

/-- Alert-set membership test by type (the alert `type` field of the spec). -/
def isType (ty : String) (a : Alert) : Bool := a.type == ty

/-- Alert-set membership test by type and critical severity. -/
def isTypeCrit (ty : String) (a : Alert) : Bool :=
  a.type == ty && a.severity == "critical"

theorem tempAlerts_count_engine (now : Int) (d : Fragment) :
    (tempAlerts now d).countP (isType "engine") =
      if optGT (d.engine.bind EngineData.temperature) 95 then 1 else 0 := by
  unfold tempAlerts optGT
  rcases h : d.engine.bind EngineData.temperature with _ | t
  · simp
  · by_cases ht : t > 95 <;> simp [ht, isType]

theorem tempAlerts_count_engineCrit (now : Int) (d : Fragment) :
    (tempAlerts now d).countP (isTypeCrit "engine") =
      if optGT (d.engine.bind EngineData.temperature) 105 then 1 else 0 := by
  unfold tempAlerts optGT
  rcases h : d.engine.bind EngineData.temperature with _ | t
  · simp
  · by_cases h105 : t > 105
    · have h95 : t > 95 := by omega
      simp [h105, h95, isTypeCrit]
    · by_cases h95 : t > 95 <;> simp [h105, h95, isTypeCrit]

theorem tempAlerts_countP_zero (now : Int) (d : Fragment) (p : Alert → Bool)
    (hp : ∀ a : Alert, a.type = "engine" → p a = false) :
    (tempAlerts now d).countP p = 0 := by
  unfold tempAlerts
  rcases h : d.engine.bind EngineData.temperature with _ | t
  · simp
  · by_cases ht : t > 95 <;> simp [ht, hp]

theorem rpmAlerts_count_engine (now : Int) (d : Fragment) :
    (rpmAlerts now d).countP (isType "engine") =
      if optGT (d.engine.bind EngineData.rpm) 1800 then 1 else 0 := by
  unfold rpmAlerts optGT
  rcases h : d.engine.bind EngineData.rpm with _ | r
  · simp
  · by_cases hr : r > 1800 <;> simp [hr, isType]

theorem rpmAlerts_count_engineCrit (now : Int) (d : Fragment) :
    (rpmAlerts now d).countP (isTypeCrit "engine") = 0 := by
  unfold rpmAlerts
  rcases h : d.engine.bind EngineData.rpm with _ | r
  · simp
  · by_cases hr : r > 1800 <;> simp [hr, isTypeCrit]

theorem rpmAlerts_countP_zero (now : Int) (d : Fragment) (p : Alert → Bool)
    (hp : ∀ a : Alert, a.type = "engine" → p a = false) :
    (rpmAlerts now d).countP p = 0 := by
  unfold rpmAlerts
  rcases h : d.engine.bind EngineData.rpm with _ | r
  · simp
  · by_cases hr : r > 1800 <;> simp [hr, hp]

theorem socAlerts_count_power (now : Int) (d : Fragment) :
    (socAlerts now d).countP (isType "power") =
      if optLT (d.power.bind PowerData.batterySOC) 25 then 1 else 0 := by
  unfold socAlerts optLT
  rcases h : d.power.bind PowerData.batterySOC with _ | s
  · simp
  · by_cases hs : s < 25 <;> simp [hs, isType]

theorem socAlerts_count_powerCrit (now : Int) (d : Fragment) :
    (socAlerts now d).countP (isTypeCrit "power") =
      if optLT (d.power.bind PowerData.batterySOC) 15 then 1 else 0 := by
  unfold socAlerts optLT
  rcases h : d.power.bind PowerData.batterySOC with _ | s
  · simp
  · by_cases h15 : s < 15
    · have h25 : s < 25 := by omega
      simp [h15, h25, isTypeCrit]
    · by_cases h25 : s < 25 <;> simp [h15, h25, isTypeCrit]

theorem socAlerts_countP_zero (now : Int) (d : Fragment) (p : Alert → Bool)
    (hp : ∀ a : Alert, a.type = "power" → p a = false) :
    (socAlerts now d).countP p = 0 := by
  unfold socAlerts
  rcases h : d.power.bind PowerData.batterySOC with _ | s
  · simp
  · by_cases hs : s < 25 <;> simp [hs, hp]

theorem bilgeAlerts_count_safety (now : Int) (d : Fragment) :
    (bilgeAlerts now d).countP (isType "safety") =
      if optGT (d.safety.bind SafetyData.bilgeLevel) 40 then 1 else 0 := by
  unfold bilgeAlerts optGT
  rcases h : d.safety.bind SafetyData.bilgeLevel with _ | b
  · simp
  · by_cases hb : b > 40 <;> simp [hb, isType]

theorem bilgeAlerts_count_safetyCrit (now : Int) (d : Fragment) :
    (bilgeAlerts now d).countP (isTypeCrit "safety") =
      if optGT (d.safety.bind SafetyData.bilgeLevel) 60 then 1 else 0 := by
  unfold bilgeAlerts optGT
  rcases h : d.safety.bind SafetyData.bilgeLevel with _ | b
  · simp
  · by_cases h60 : b > 60
    · have h40 : b > 40 := by omega
      simp [h60, h40, isTypeCrit]
    · by_cases h40 : b > 40 <;> simp [h60, h40, isTypeCrit]

theorem bilgeAlerts_countP_zero (now : Int) (d : Fragment) (p : Alert → Bool)
    (hp : ∀ a : Alert, a.type = "safety" → p a = false) :
    (bilgeAlerts now d).countP p = 0 := by
  unfold bilgeAlerts
  rcases h : d.safety.bind SafetyData.bilgeLevel with _ | b
  · simp
  · by_cases hb : b > 40 <;> simp [hb, hp]

theorem fireAlerts_count_emergency (now : Int) (d : Fragment) :
    (fireAlerts now d).countP (isType "emergency") =
      if d.safety.bind SafetyData.fireAlarm = some true then 1 else 0 := by
  unfold fireAlerts
  by_cases hf : d.safety.bind SafetyData.fireAlarm = some true <;> simp [hf, isType]

theorem fireAlerts_count_emergencyCrit (now : Int) (d : Fragment) :
    (fireAlerts now d).countP (isTypeCrit "emergency") =
      if d.safety.bind SafetyData.fireAlarm = some true then 1 else 0 := by
  unfold fireAlerts
  by_cases hf : d.safety.bind SafetyData.fireAlarm = some true <;> simp [hf, isTypeCrit]

theorem fireAlerts_countP_zero (now : Int) (d : Fragment) (p : Alert → Bool)
    (hp : ∀ a : Alert, a.type = "emergency" → p a = false) :
    (fireAlerts now d).countP p = 0 := by
  unfold fireAlerts
  by_cases hf : d.safety.bind SafetyData.fireAlarm = some true <;> simp [hf, hp]

/-- A fragment carrying only `engine.temperature = 106`. -/
def fragTemp106 : Fragment :=
  { vesselId := "v1", operational := none, lastTelemetry := none, timestamp := none,
    engine := some { rpm := none, temperature := some 106, fuelFlow := none },
    power := none, navigation := none, location := none, safety := none, systems := none }

/-- A fragment carrying only `power.batterySOC = 14`. -/
def fragSoc14 : Fragment :=
  { vesselId := "v1", operational := none, lastTelemetry := none, timestamp := none,
    engine := none,
    power := some { batterySOC := some 14, voltage := none, generatorLoad := none, mode := none },
    navigation := none, location := none, safety := none, systems := none }

/-- A fragment carrying only `power.batterySOC = 24`. -/
def fragSoc24 : Fragment :=
  { vesselId := "v1", operational := none, lastTelemetry := none, timestamp := none,
    engine := none,
    power := some { batterySOC := some 24, voltage := none, generatorLoad := none, mode := none },
    navigation := none, location := none, safety := none, systems := none }

/-- Claim C6: alert evaluation on an update is per-condition and
independent — the count of alerts of each type/severity depends only on
the one reading named by the condition: engine temperature over 95 emits
an engine alert (critical above 105), rpm over 1800 an engine warning
(never critical), battery SOC under 25 a power alert (critical under
15), bilge level over 40 a safety alert (critical above 60), and
`fireAlarm === true` one critical alert of type `emergency`.
Concretely: temperature 106 yields exactly the one critical engine alert
with the reading embedded in the message; SOC 14 exactly one critical
power alert; SOC 24 exactly one power warning. -/
theorem alert_thresholds_per_condition (now : Int) (d : Fragment) :
    ((checkForAlerts now d).countP (isType "engine") =
        (if optGT (d.engine.bind EngineData.temperature) 95 then 1 else 0) +
          (if optGT (d.engine.bind EngineData.rpm) 1800 then 1 else 0)) ∧
    ((checkForAlerts now d).countP (isTypeCrit "engine") =
        if optGT (d.engine.bind EngineData.temperature) 105 then 1 else 0) ∧
    ((checkForAlerts now d).countP (isType "power") =
        if optLT (d.power.bind PowerData.batterySOC) 25 then 1 else 0) ∧
    ((checkForAlerts now d).countP (isTypeCrit "power") =
        if optLT (d.power.bind PowerData.batterySOC) 15 then 1 else 0) ∧
    ((checkForAlerts now d).countP (isType "safety") =
        if optGT (d.safety.bind SafetyData.bilgeLevel) 40 then 1 else 0) ∧
    ((checkForAlerts now d).countP (isTypeCrit "safety") =
        if optGT (d.safety.bind SafetyData.bilgeLevel) 60 then 1 else 0) ∧
    ((checkForAlerts now d).countP (isType "emergency") =
        if d.safety.bind SafetyData.fireAlarm = some true then 1 else 0) ∧
    ((checkForAlerts now d).countP (isTypeCrit "emergency") =
        if d.safety.bind SafetyData.fireAlarm = some true then 1 else 0) ∧
    checkForAlerts 7 fragTemp106 =
      [{ id := "v1-engine-temp-7", vesselId := "v1", type := "engine",
         severity := "critical", message := "Engine temperature high: 106°C",
         timestamp := 7, acknowledged := false, acknowledgedAt := none,
         location := none, emergencyType := none }] ∧
    checkForAlerts 3 fragSoc14 =
      [{ id := "v1-battery-low-3", vesselId := "v1", type := "power",
         severity := "critical", message := "Battery SOC low: 14%",
         timestamp := 3, acknowledged := false, acknowledgedAt := none,
         location := none, emergencyType := none }] ∧
    checkForAlerts 3 fragSoc24 =
      [{ id := "v1-battery-low-3", vesselId := "v1", type := "power",
         severity := "warning", message := "Battery SOC low: 24%",
         timestamp := 3, acknowledged := false, acknowledgedAt := none,
         location := none, emergencyType := none }] := by
  have zTemp : ∀ ty : String, ("engine" == ty) = false →
      ((tempAlerts now d).countP (isType ty) = 0 ∧ (tempAlerts now d).countP (isTypeCrit ty) = 0) :=
    fun ty hty =>
      ⟨tempAlerts_countP_zero now d (isType ty) (by intro a h; simp [isType, h, hty]),
       tempAlerts_countP_zero now d (isTypeCrit ty) (by intro a h; simp [isTypeCrit, h, hty])⟩
  have zRpm : ∀ ty : String, ("engine" == ty) = false →
      ((rpmAlerts now d).countP (isType ty) = 0 ∧ (rpmAlerts now d).countP (isTypeCrit ty) = 0) :=
    fun ty hty =>
      ⟨rpmAlerts_countP_zero now d (isType ty) (by intro a h; simp [isType, h, hty]),
       rpmAlerts_countP_zero now d (isTypeCrit ty) (by intro a h; simp [isTypeCrit, h, hty])⟩
  have zSoc : ∀ ty : String, ("power" == ty) = false →
      ((socAlerts now d).countP (isType ty) = 0 ∧ (socAlerts now d).countP (isTypeCrit ty) = 0) :=
    fun ty hty =>
      ⟨socAlerts_countP_zero now d (isType ty) (by intro a h; simp [isType, h, hty]),
       socAlerts_countP_zero now d (isTypeCrit ty) (by intro a h; simp [isTypeCrit, h, hty])⟩
  have zBilge : ∀ ty : String, ("safety" == ty) = false →
      ((bilgeAlerts now d).countP (isType ty) = 0 ∧ (bilgeAlerts now d).countP (isTypeCrit ty) = 0) :=
    fun ty hty =>
      ⟨bilgeAlerts_countP_zero now d (isType ty) (by intro a h; simp [isType, h, hty]),
       bilgeAlerts_countP_zero now d (isTypeCrit ty) (by intro a h; simp [isTypeCrit, h, hty])⟩
  have zFire : ∀ ty : String, ("emergency" == ty) = false →
      ((fireAlerts now d).countP (isType ty) = 0 ∧ (fireAlerts now d).countP (isTypeCrit ty) = 0) :=
    fun ty hty =>
      ⟨fireAlerts_countP_zero now d (isType ty) (by intro a h; simp [isType, h, hty]),
       fireAlerts_countP_zero now d (isTypeCrit ty) (by intro a h; simp [isTypeCrit, h, hty])⟩
  refine ⟨?_, ?_, ?_, ?_, ?_, ?_, ?_, ?_, by decide, by decide, by decide⟩
  · simp only [checkForAlerts, List.countP_append,
      tempAlerts_count_engine, rpmAlerts_count_engine,
      (zSoc "engine" (by decide)).1, (zBilge "engine" (by decide)).1,
      (zFire "engine" (by decide)).1]
    omega
  · simp only [checkForAlerts, List.countP_append,
      tempAlerts_count_engineCrit, rpmAlerts_count_engineCrit,
      (zSoc "engine" (by decide)).2, (zBilge "engine" (by decide)).2,
      (zFire "engine" (by decide)).2]
    omega
  · simp only [checkForAlerts, List.countP_append, socAlerts_count_power,
      (zTemp "power" (by decide)).1, (zRpm "power" (by decide)).1,
      (zBilge "power" (by decide)).1, (zFire "power" (by decide)).1]
    omega
  · simp only [checkForAlerts, List.countP_append, socAlerts_count_powerCrit,
      (zTemp "power" (by decide)).2, (zRpm "power" (by decide)).2,
      (zBilge "power" (by decide)).2, (zFire "power" (by decide)).2]
    omega
  · simp only [checkForAlerts, List.countP_append, bilgeAlerts_count_safety,
      (zTemp "safety" (by decide)).1, (zRpm "safety" (by decide)).1,
      (zSoc "safety" (by decide)).1, (zFire "safety" (by decide)).1]
    omega
  · simp only [checkForAlerts, List.countP_append, bilgeAlerts_count_safetyCrit,
      (zTemp "safety" (by decide)).2, (zRpm "safety" (by decide)).2,
      (zSoc "safety" (by decide)).2, (zFire "safety" (by decide)).2]
    omega
  · simp only [checkForAlerts, List.countP_append, fireAlerts_count_emergency,
      (zTemp "emergency" (by decide)).1, (zRpm "emergency" (by decide)).1,
      (zSoc "emergency" (by decide)).1, (zBilge "emergency" (by decide)).1]
    omega
  · simp only [checkForAlerts, List.countP_append, fireAlerts_count_emergencyCrit,
      (zTemp "emergency" (by decide)).2, (zRpm "emergency" (by decide)).2,
      (zSoc "emergency" (by decide)).2, (zBilge "emergency" (by decide)).2]
    omega

theorem insertAlerts_eq (newAlerts log : List Alert) :
    insertAlerts newAlerts log = newAlerts.reverse ++ log := by
  induction newAlerts generalizing log with
  | nil => rfl
  | cons a rest ih =>
    show insertAlerts rest (a :: log) = (a :: rest).reverse ++ log
    rw [ih]
    simp

/-- A concrete sample alert. -/
def alertA : Alert :=
  { id := "A", vesselId := "v1", type := "engine", severity := "warning",
    message := "m", timestamp := 0, acknowledged := false, acknowledgedAt := none,
    location := none, emergencyType := none }

/-- A concrete emergency payload. -/
def emgData : EmergencyData :=
  { vesselId := "v1", message := none, timestamp := none, location := none, type := none }

/-- Claim C3 counterexample: with the alert log already at the cap of
100 entries, `handleEmergencyAlert` prepends its alert without any
trimming, leaving 101 entries — the claimed bound of at most 100 after
every alert-inserting operation fails. -/
theorem emergency_insert_exceeds_cap_cex :
    (handleEmergencyAlert 0 (List.replicate 100 alertA) emgData).length = 101 := by
  simp [handleEmergencyAlert]

/-- Claim C3 amended: only the threshold path (`checkForAlerts`) trims:
it caps the log at the 100 newest entries by position, dropping the
oldest entries regardless of severity (no preference for critical
alerts).  The emergency path (`handleEmergencyAlert`) prepends without
trimming, so the log can exceed 100 until the next `checkForAlerts`
call. -/
theorem alert_log_trim_behavior (now : Int) (log : List Alert) (d : Fragment)
    (e : EmergencyData) :
    checkForAlertsLog now log d = (insertAlerts (checkForAlerts now d) log).take 100 ∧
    (checkForAlertsLog now log d).length ≤ 100 ∧
    (handleEmergencyAlert now log e).length = log.length + 1 := by
  have h1 : checkForAlertsLog now log d = (insertAlerts (checkForAlerts now d) log).take 100 := by
    unfold checkForAlertsLog
    by_cases h : (insertAlerts (checkForAlerts now d) log).length > 100
    · simp [h]
    · rw [if_neg h, List.take_of_length_le (by omega)]
  refine ⟨h1, ?_, by simp [handleEmergencyAlert]⟩
  rw [h1]
  simp [List.length_take]

theorem ackFirst_not_found (now : Int) (alertId : String) (log : List Alert)
    (h : ∀ a ∈ log, a.id ≠ alertId) : ackFirst now alertId log = (log, false) := by
  induction log with
  | nil => rfl
  | cons a rest ih =>
    have ha : a.id ≠ alertId := h a (by simp)
    simp [ackFirst, ha, ih (fun b hb => h b (by simp [hb]))]

theorem ackFirst_found (now : Int) (alertId : String) (pre : List Alert) (a : Alert)
    (post : List Alert) (hpre : ∀ b ∈ pre, b.id ≠ alertId) (ha : a.id = alertId) :
    ackFirst now alertId (pre ++ a :: post) =
      (pre ++ { a with acknowledged := true, acknowledgedAt := some now } :: post, true) := by
  induction pre with
  | nil => simp [ackFirst, ha]
  | cons b rest ih =>
    have hb : b.id ≠ alertId := hpre b (by simp)
    simp [ackFirst, hb, ih (fun c hc => hpre c (by simp [hc]))]

/-- Claim C7 counterexample: acknowledging the same alert a second time
at a later clock is not a no-op on the record — `acknowledgeAlert`
unconditionally overwrites `acknowledgedAt` with the current time, so
the log after the second acknowledgement differs from the log after the
first (`acknowledgedAt` moves from 1 to 2). -/
theorem reack_changes_acknowledgedAt_cex :
    ((acknowledgeAlert 1 [alertA] "A").1.head?.map Alert.acknowledgedAt = some (some 1)) ∧
    ((acknowledgeAlert 2 (acknowledgeAlert 1 [alertA] "A").1 "A").1.head?.map
        Alert.acknowledgedAt = some (some 2)) ∧
    (acknowledgeAlert 2 (acknowledgeAlert 1 [alertA] "A").1 "A").1 ≠
      (acknowledgeAlert 1 [alertA] "A").1 := by
  decide

/-- Claim C7 amended: `acknowledgeAlert` on an alert present in the log
sets `acknowledged = true` and `acknowledgedAt = now` on the first
matching entry and broadcasts the acknowledgement; on an unknown id it
leaves the log unchanged but reports nothing (the not-found case is
silent — no NotFound result or broadcast); acknowledging the same alert
again is accepted and not an error, but it is not a no-op: it overwrites
`acknowledgedAt` with the later time. -/
theorem acknowledge_behavior (now : Int) (log : List Alert) (alertId : String) :
    ((∀ a ∈ log, a.id ≠ alertId) → acknowledgeAlert now log alertId = (log, none)) ∧
    (∀ pre a post, log = pre ++ a :: post → (∀ b ∈ pre, b.id ≠ alertId) →
      a.id = alertId →
      acknowledgeAlert now log alertId =
        (pre ++ { a with acknowledged := true, acknowledgedAt := some now } :: post,
          some now)) := by
  constructor
  · intro h
    simp [acknowledgeAlert, ackFirst_not_found now alertId log h]
  · intro pre a post hlog hpre ha
    subst hlog
    simp [acknowledgeAlert, ackFirst_found now alertId pre a post hpre ha]

/-- Witness for the acknowledge theorem at a concrete log: acknowledging
the only alert of a one-entry log at time 5 marks it acknowledged at 5
and broadcasts, and acknowledging an unknown id changes nothing. -/
theorem acknowledge_behavior_witness :
    acknowledgeAlert 5 [alertA] "A" =
      ([{ alertA with acknowledged := true, acknowledgedAt := some (5 : Int) }], some 5) ∧
    acknowledgeAlert 5 [alertA] "B" = ([alertA], none) :=
  ⟨(acknowledge_behavior 5 [alertA] "A").2 [] alertA [] rfl (by simp) rfl,
   (acknowledge_behavior 5 [alertA] "B").1 (by decide)⟩

/-- A raw telemetry row with a single non-null metric
(`engine_rpm = 100`) at timestamp 300000. -/
def rawRowRpm : TelemetryRow :=
  { id := 1, vessel_id := "v1", timestamp := 300000,
    engine_rpm := some 100, engine_temp := none, fuel_flow := none,
    battery_soc := none, voltage := none, generator_load := none,
    speed := none, heading := none, latitude := none, longitude := none,
    bilge_level := none, co2_level := none, operational_state := none,
    created_at := 300000 }

/-- Claim C2 counterexample: with one raw sample in the 5-minute window
`[300000, 600000)`, running `aggregateData` twice for the same window
leaves two identical aggregate rows for
`(v1, engine_rpm, 5min, 300000)`, not one — the table has no unique key
and the insert is a plain `INSERT`, so re-aggregation duplicates. -/
theorem aggregate_rerun_duplicates_cex :
    ((aggregateData 600000 [rawRowRpm]
        (aggregateData 600000 [rawRowRpm] [] "5min") "5min").filter
      (fun a => a.vessel_id == "v1" && a.metric_name == "engine_rpm" &&
        a.interval_type == "5min" && a.timestamp == (300000 : Int))).length = 2 := by
  decide

/-- Claim C2 amended: `aggregateData` is append-only: re-running it for
the same window and interval appends a second, value-identical batch of
bucket rows (the exact batch a run against an empty aggregates table
produces) instead of overwriting — each rerun adds one more duplicate
row per (vessel, metric) rather than keeping exactly one. -/
theorem aggregate_rerun_appends_same_batch (now : Int) (raw : List TelemetryRow)
    (aggs : List AggRow) (intervalType : String) :
    aggregateData now raw (aggregateData now raw aggs intervalType) intervalType =
      aggregateData now raw aggs intervalType ++ aggregateData now raw [] intervalType := by
  cases h : aggregationIntervals intervalType with
  | none => simp [aggregateData, h]
  | some ims => simp [aggregateData, h, List.append_assoc]

/-- A raw telemetry row 7 hours older than the reference clock
100000000. -/
def rawRow7h : TelemetryRow :=
  { id := 1, vessel_id := "v1", timestamp := 74800000,
    engine_rpm := some 100, engine_temp := none, fuel_flow := none,
    battery_soc := none, voltage := none, generator_load := none,
    speed := none, heading := none, latitude := none, longitude := none,
    bilge_level := none, co2_level := none, operational_state := none,
    created_at := 74800000 }

/-- Claim C8 counterexample: for range `6h` there are zero raw samples
inside the requested 6-hour window, yet the export still contains a data
line (the `hoursAgo` map has no `6h` key, so the window silently becomes
24h); and for an empty result set the export is the empty string — no
header line at all. -/
theorem export_csv_6h_and_empty_cex :
    (([rawRow7h].filter (fun r => r.vessel_id == "v1" &&
        decide (r.timestamp > 100000000 - 6 * 3600000))).length = 0) ∧
    (exportLines 100000000 [rawRow7h] "v1" "6h").length = 2 ∧
    exportToCSV 100000000 [] "v1" "6h" = "" := by
  decide

/-- Claim C8 amended: `exportToCSV` honours only the ranges `1h`, `12h`
and `24h`; any other range — `6h` included — falls back to a 24-hour
window.  For a nonempty result set it returns a 17-field header line
(the column count of the telemetry schema) plus exactly one line per raw
sample of the vessel in the *effective* window, nulls rendered as empty
fields; for an empty result set it returns the empty string with no
header line. -/
theorem export_csv_structure (now : Int) (raw : List TelemetryRow) (v timeRange : String) :
    (exportRows now raw v timeRange = [] → exportToCSV now raw v timeRange = "") ∧
    ((exportLines now raw v timeRange).length =
      if exportRows now raw v timeRange = [] then 0
      else (exportRows now raw v timeRange).length + 1) ∧
    csvHeader.length = 17 ∧
    (∀ r : TelemetryRow, (renderRow r).length = 17) ∧
    exportRows now raw v "6h" = exportRows now raw v "24h" := by
  have h6 : exportHours "6h" = 24 := by decide
  have h24 : exportHours "24h" = 24 := by decide
  refine ⟨?_, ?_, rfl, fun r => rfl, by rw [exportRows, exportRows, h6, h24]⟩
  · intro h
    have hl : exportLines now raw v timeRange = [] := by
      unfold exportLines
      rw [h]
    simp [exportToCSV, hl]
  · cases h : exportRows now raw v timeRange with
    | nil => simp [exportLines, h]
    | cons r rs => simp [exportLines, h]

/-- Witness for the CSV structure theorem: an empty table exports the
empty string, its line count is 0, and the header and row renderings
have 17 fields. -/
theorem export_csv_structure_witness :
    exportToCSV 0 [] "v2" "1h" = "" ∧
    (exportLines 0 [] "v2" "1h").length = 0 ∧
    csvHeader.length = 17 ∧
    (renderRow rawRow7h).length = 17 ∧
    exportRows 0 [] "v2" "6h" = exportRows 0 [] "v2" "24h" := by
  have T := export_csv_structure 0 [] "v2" "1h"
  exact ⟨T.1 rfl, by rw [T.2.1]; decide, T.2.2.1, T.2.2.2.1 rawRow7h, T.2.2.2.2⟩

/-- Claim C9 counterexample: with zero matching rows `getStatistics`
resolves the SQL aggregate row `min = NULL, max = NULL, avg = NULL,
count = 0`, not the claimed zeroed stats — the `stats || \x7bmin: 0, ...\x7d`
fallback never fires because the aggregate query always returns a row. -/
theorem stats_empty_returns_nulls_cex :
    getStatistics 0 [] "v1" "engine_rpm" "24h" =
      { min := none, max := none, avg := none, count := 0 } := by
  rfl

/-- Claim C9 amended: `getStatistics` returns a `\x7bmin, max, avg, count\x7d`
record for every vessel, metric and range, and with zero matching rows
it returns `min`, `max` and `avg` as nulls with `count = 0` (the SQL
aggregates over an empty set), not zeroed values nor an error; zeroed
stats are only the storage-error fallback.  `count` always equals the
number of matching non-null readings. -/
theorem stats_empty_and_count (now : Int) (raw : List TelemetryRow)
    (v m timeRange : String) :
    (statsVals now raw v m timeRange = [] →
      getStatistics now raw v m timeRange =
        { min := none, max := none, avg := none, count := 0 }) ∧
    (getStatistics now raw v m timeRange).count = (statsVals now raw v m timeRange).length := by
  constructor
  · intro h
    simp [getStatistics, h]
  · cases h : statsVals now raw v m timeRange <;> simp [getStatistics, h]

/-- Witness for the statistics theorem: an empty table over range `1h`
yields the all-null, zero-count record. -/
theorem stats_empty_and_count_witness :
    getStatistics 0 [] "v1" "engine_rpm" "1h" =
      { min := none, max := none, avg := none, count := 0 } :=
  (stats_empty_and_count 0 [] "v1" "engine_rpm" "1h").1 rfl

/-- A merged vessel state whose rpm, fuel flow and speed readings are
genuinely zero. -/
def vesselZeroRpm : Vessel :=
  { vesselId := "v1", operational := none, lastTelemetry := none, timestamp := none,
    engine := some { rpm := some 0, temperature := none, fuelFlow := some 0 },
    power := none,
    navigation := some { speed := some 0, heading := none, latitude := none,
                         longitude := none, route := none },
    location := none, safety := none, systems := none,
    lastSeen := 0, status := Status.normal, operationalState := "docked" }

/-- Claim C10: the `|| null` defaulting of `saveTelemetry` coerces every
falsy reading to SQL NULL, so a genuine zero reading (rpm 0, fuel flow
0, speed 0 with no location fallback) is persisted as NULL; and a NULL
metric is excluded from the raw time-range query, from the statistics
values and from the aggregation window values, all of which filter on
the metric being non-null. -/
theorem zero_reading_persisted_null_and_excluded (now : Int) (rowId : Nat) (v : Vessel)
    (r : TelemetryRow) (m vq : String) (since s e now2 : Int) (l : List TelemetryRow)
    (timeRange : String) :
    (v.engine.bind EngineData.rpm = some 0 →
      metricVal "engine_rpm" (saveTelemetry now rowId v) = none) ∧
    (v.engine.bind EngineData.fuelFlow = some 0 →
      metricVal "fuel_flow" (saveTelemetry now rowId v) = none) ∧
    (v.navigation.bind NavigationData.speed = some 0 →
      v.location.bind LocationData.speed = none →
      metricVal "speed" (saveTelemetry now rowId v) = none) ∧
    (metricVal m r = none → rawQueryKeeps vq m since r = false) ∧
    (metricVal m r = none →
      statsVals now2 (r :: l) vq m timeRange = statsVals now2 l vq m timeRange) ∧
    (metricVal m r = none → windowVals (r :: l) vq m s e = windowVals l vq m s e) := by
  refine ⟨?_, ?_, ?_, ?_, ?_, ?_⟩
  · intro h
    simp [saveTelemetry, metricVal, h, jsNumOrNull]
  · intro h
    simp [saveTelemetry, metricVal, h, jsNumOrNull]
  · intro h1 h2
    simp [saveTelemetry, metricVal, h1, h2, jsNumOr, jsNumOrNull]
  · intro h
    simp [rawQueryKeeps, h]
  · intro h
    unfold statsVals
    by_cases hp : (r.vessel_id == vq &&
        decide (r.timestamp > now2 - statsHours timeRange * 3600000)) = true
    · simp [List.filter_cons, hp, List.filterMap_cons, h]
    · simp [List.filter_cons, hp]
  · intro h
    unfold windowVals
    by_cases hp : (r.vessel_id == vq && decide (s ≤ r.timestamp) &&
        decide (r.timestamp < e)) = true
    · simp [List.filter_cons, hp, List.filterMap_cons, h]
    · simp [List.filter_cons, hp]

/-- Witness for the zero-coercion theorem: the row saved for a vessel
with rpm 0, fuel flow 0 and speed 0 carries NULL in those columns and is
invisible to the rpm query filter, statistics and aggregation. -/
theorem zero_reading_persisted_null_and_excluded_witness :
    metricVal "engine_rpm" (saveTelemetry 0 1 vesselZeroRpm) = none ∧
    metricVal "fuel_flow" (saveTelemetry 0 1 vesselZeroRpm) = none ∧
    metricVal "speed" (saveTelemetry 0 1 vesselZeroRpm) = none ∧
    rawQueryKeeps "v1" "engine_rpm" (-1) (saveTelemetry 0 1 vesselZeroRpm) = false ∧
    statsVals 0 [saveTelemetry 0 1 vesselZeroRpm] "v1" "engine_rpm" "24h" =
      statsVals 0 [] "v1" "engine_rpm" "24h" ∧
    windowVals [saveTelemetry 0 1 vesselZeroRpm] "v1" "engine_rpm" 0 300000 =
      windowVals [] "v1" "engine_rpm" 0 300000 := by
  have T := zero_reading_persisted_null_and_excluded 0 1 vesselZeroRpm
    (saveTelemetry 0 1 vesselZeroRpm) "engine_rpm" "v1" (-1) 0 300000 0 [] "24h"
  exact ⟨T.1 rfl, T.2.1 rfl, T.2.2.1 rfl rfl, T.2.2.2.1 (by decide),
    T.2.2.2.2.1 (by decide), T.2.2.2.2.2 (by decide)⟩

end FerryOps
